import Mathlib

/-
  Verification development for the forex trading bot repository.

  Shallow embedding of the trade lifecycle coordinator (trade_executor.py),
  the position sizer (position_sizer.py), the state manager
  (state_manager.py) and the monitor loop (trading.py).

  Conventions:
  - Python floats are modelled as rationals.
  - Python dicts read through dict.get with a default are modelled either as
    association lists with a defaulting lookup, or as functions from String
    to Option Val where the full key space matters.
  - Fallible effects (broker response, exceptions raised inside the guarded
    block of execute_trade) are injected through an explicit environment.
-/

/-- Constant MAX_SPREAD_PIPS from trade_executor.py. -/
def MAX_SPREAD_PIPS : ℚ := 2

/-- Constant MAX_TRADES_PER_DAY from trade_executor.py. -/
def MAX_TRADES_PER_DAY : ℕ := 10

/-- Constant MAX_GLOBAL_TRADES from trade_executor.py. -/
def MAX_GLOBAL_TRADES : ℕ := 50

/-- Constant MIN_TIME_BETWEEN_TRADES_SEC from trade_executor.py. -/
def MIN_TIME_BETWEEN_TRADES_SEC : ℚ := 6

/-- Substring occurrence on character lists (structural helper for the
Python membership test of one string in another). -/
def hasSub (needle : List Char) : List Char → Bool
  | [] => needle.isEmpty
  | c :: rest => needle.isPrefixOf (c :: rest) || hasSub needle rest

/-- Python substring containment: needle in hay. -/
def strContains (hay needle : String) : Bool := hasSub needle.data hay.data

/-- Python str.lower, adequate for the ASCII direction strings of this
program. -/
def lowerStr (s : String) : String := ⟨s.data.map Char.toLower⟩

/-- Python str.upper, adequate for the ASCII direction strings of this
program. -/
def upperStr (s : String) : String := ⟨s.data.map Char.toUpper⟩

/-- Python int() applied to a rational: truncation toward zero. -/
def pyTrunc (q : ℚ) : ℤ := if 0 ≤ q then ⌊q⌋ else ⌈q⌉

/-- Python truthiness of an optional string: None and the empty string are
falsy. -/
def pyTruthyStr : Option String → Bool
  | none => false
  | some s => !(s == "")

/-- Lookup with default 0 in a string-keyed counter dict, as in
dict.get(key, 0). -/
def dictGetNat (d : List (String × ℕ)) (k : String) : ℕ :=
  match d.find? (fun p => p.1 == k) with
  | some p => p.2
  | none => 0

/-- Lookup with default 0 in a string-keyed timestamp dict, as in
dict.get(key, 0). -/
def dictGetQ (d : List (String × ℚ)) (k : String) : ℚ :=
  match d.find? (fun p => p.1 == k) with
  | some p => p.2
  | none => 0

/-- Account summary as consumed by calculate_position_size: only the
balance key is read, through account_summary.get with default 0; a missing
key is the none case. -/
structure AccountSummary where
  balance : Option ℚ
deriving DecidableEq

/-- Embedding of float(account_summary.get(balance-key, 0)) from
position_sizer.py. -/
def account_balance (acct : AccountSummary) : ℚ := acct.balance.getD 0

/-- Embedding of calculate_position_size from position_sizer.py.
The atr argument is None (unavailable) or a rational; Python falsiness of
a zero float is the some-zero case. risk_per_trade is fixed at its default
value 2 percent, the only value the repository uses. -/
def calculate_position_size (instrument : String) (account_summary : AccountSummary)
    (atr : Option ℚ) : ℤ :=
  let balance := account_balance account_summary
  let risk_amount := balance * (2 / 100)
  let pip_value : ℚ := if strContains instrument "JPY" then 1 / 100 else 1 / 10000
  let stop_loss_pips : ℚ :=
    match atr with
    | none => 20
    | some a => if a = 0 then 20 else a
  let units := pyTrunc (risk_amount / (stop_loss_pips * pip_value))
  max units 1

/-- Trading signal as consumed by execute_trade: a dict with the keys
instrument, direction, confidence and price (the data-model shape); only
instrument and direction are read directly, the whole dict is hashed. -/
structure Signal where
  instrument : String
  direction : String
  confidence : ℚ
  price : ℚ
deriving DecidableEq

/-- Embedding of get_signal_hash from utils.py: the Python code serializes
the sorted key-value pairs of the signal dict and applies sha256. The
serialization of the sorted fields is modelled concretely; sha256, an
injective external primitive, is abstracted away, so the hash is the
serialized sorted-field string itself. Determinism and stability over the
sorted fields are preserved exactly. -/
def get_signal_hash (s : Signal) : String :=
  "[(confidence, " ++ toString s.confidence ++ "), (direction, " ++ s.direction
    ++ "), (instrument, " ++ s.instrument ++ "), (price, " ++ toString s.price ++ ")]"

/-- Trade record appended by record_open_trade in state_manager.py. The
opened_at field carries the timestamp string datetime.utcnow().isoformat(),
supplied by the environment. -/
structure TradeRecord where
  trade_id : String
  instrument : String
  direction : String
  size : ℤ
  atr : ℚ
  opened_at : String
deriving DecidableEq

/-- The slice of the persisted state dict that the coordinator reads and
writes: the keys open_trades, daily_trade_count, last_trade_time and
recent_signals. Every read in the source goes through dict.get with a
default, which the defaulting lookups reproduce, so totalizing the four
keys into a structure is faithful. -/
structure TradeState where
  open_trades : List TradeRecord
  daily_trade_count : List (String × ℕ)
  last_trade_time : List (String × ℚ)
  recent_signals : List String
deriving DecidableEq

/-- Embedding of can_trade from trade_executor.py; now is the value of
time() at the call. -/
def can_trade (instrument : String) (state : TradeState) (now : ℚ) : Bool × String :=
  if MAX_GLOBAL_TRADES ≤ state.open_trades.length then
    (false, "Max global trades reached.")
  else if MAX_TRADES_PER_DAY ≤ dictGetNat state.daily_trade_count instrument then
    (false, "Max trades for " ++ instrument ++ " today.")
  else if now - dictGetQ state.last_trade_time instrument < MIN_TIME_BETWEEN_TRADES_SEC then
    (false, "Cooldown not passed for " ++ instrument ++ ".")
  else
    (true, "")

/-- The tradeOpened sub-dict of a broker order response; tradeID may be
missing. -/
structure TradeOpened where
  tradeID : Option String
deriving DecidableEq

/-- Broker order response dict as classified by execute_trade: only the
errorMessage key and the tradeOpened.tradeID path are read, both through
dict.get. -/
structure OrderResponse where
  errorMessage : Option String
  tradeOpened : Option TradeOpened
deriving DecidableEq

/-- Environment of one execute_trade call: the market data fetched at the
top (spread, atr), the clock, the timestamp string used when recording,
the broker gateway response to place_order (none models no response), and
the exceptions that the effectful steps inside the guarded block may
raise: record_exn for a raise out of record_open_trade (its in-memory
mutation precedes the raising save call in the source, so the mutation
persists), log_exn for a raise out of log_trade_action. -/
structure ExecEnv where
  spread : ℚ
  atr : ℚ
  now : ℚ
  opened_at : String
  order_response : Option OrderResponse
  record_exn : Option String
  log_exn : Option String
deriving DecidableEq

/-- Result of one execute_trade call: the returned message, the state and
lock map after the call, the orders submitted to the gateway during the
call as instrument-units pairs, and the log lines written. -/
structure ExecResult where
  message : String
  state : TradeState
  locks : List String
  orders : List (String × ℤ)
  logs : List String
deriving DecidableEq

/-- Embedding of trade_locks.pop(instrument, None): remove the key from
the lock map (modelled as the list of held instruments). -/
def lockPop (locks : List String) (instrument : String) : List String :=
  locks.filter (fun k => k != instrument)

/-- Embedding of record_open_trade from state_manager.py: append the new
trade record to the open_trades list. The singleton state manager aliases
the state dict passed around the coordinator, so the append is visible as
a state update; no other key is touched. -/
def record_open_trade (trade_id instrument direction : String) (size : ℤ) (atr : ℚ)
    (opened_at : String) (state : TradeState) : TradeState :=
  { state with open_trades :=
      state.open_trades ++ [⟨trade_id, instrument, direction, size, atr, opened_at⟩] }

/-- Two-decimal rendering of a rational, standing in for the Python float
format with two decimals used in messages; the binary-float rounding of
Python is abstracted to rounding half up, which no claim depends on. -/
def formatQ2 (q : ℚ) : String :=
  let cents : ℤ := ⌊q * 100 + 1 / 2⌋
  let whole := cents / 100
  let frac := (cents % 100).natAbs
  toString whole ++ "." ++ (if frac < 10 then "0" else "") ++ toString frac

/-- Modelled from the spec: log_trade_action is imported by
trade_executor.py from logger.py but logger.py does not define it; the
spec describes the action being logged. The effect is modelled as the log
line it appends, collected in the logs field of the result. -/
def log_line_for (direction instrument : String) (size : ℤ) (atr : ℚ) : String :=
  "Executed " ++ upperStr direction ++ " on " ++ instrument ++ " for "
    ++ toString size ++ " units (ATR: " ++ formatQ2 atr ++ ")"

/-- Outcome of the guarded block of execute_trade (the try body together
with the except clause that turns a raise into a Trade error message):
message, state after the block, gateway orders submitted, log lines. -/
structure BodyResult where
  message : String
  state : TradeState
  orders : List (String × ℤ)
  logs : List String
deriving DecidableEq

/-- The guarded block of execute_trade from trade_executor.py, the lines
inside try and except: duplicate-fingerprint check, position sizing,
signed-unit computation, order submission, response classification,
recording and logging on success; an exception raised by the recording or
logging step is caught by the except clause and becomes a Trade error
message. -/
def execute_trade_body (signal : Signal) (account_summary : AccountSummary)
    (state : TradeState) (env : ExecEnv) : BodyResult :=
  let instrument := signal.instrument
  let direction := signal.direction
  let signal_hash := get_signal_hash signal
  if state.recent_signals.contains signal_hash then
    ⟨"Duplicate signal skipped for " ++ instrument ++ ".", state, [], []⟩
  else
    let size := calculate_position_size instrument account_summary (some env.atr)
    let units := if lowerStr direction = "buy" then size else -size
    let orders := [(instrument, units)]
    match env.order_response with
    | none => ⟨"Order failed: No response from broker.", state, orders, []⟩
    | some resp =>
      if pyTruthyStr resp.errorMessage then
        ⟨"Order failed: " ++ resp.errorMessage.getD "", state, orders, []⟩
      else
        let trade_id := (resp.tradeOpened.getD ⟨none⟩).tradeID
        if pyTruthyStr trade_id = false then
          ⟨"Order failed: No trade ID returned.", state, orders, []⟩
        else
          let st1 := record_open_trade (trade_id.getD "") instrument direction size
            env.atr env.opened_at state
          match env.record_exn with
          | some e => ⟨"Trade error: " ++ e, st1, orders, []⟩
          | none =>
            match env.log_exn with
            | some e => ⟨"Trade error: " ++ e, st1, orders, []⟩
            | none =>
              ⟨"Trade executed: " ++ instrument ++ " " ++ direction ++ " x" ++ toString size,
                st1, orders, [log_line_for direction instrument size env.atr]⟩

/-- Embedding of execute_trade from trade_executor.py, one call, with all
effects explicit. Control flow mirrors the source: spread gate, can_trade
gate, non-blocking lock check, lock acquisition, then the guarded block,
with the finally clause popping the lock on every path after acquisition;
the two-stage split reflects exactly the try, except and finally structure
of the source. -/
def execute_trade (signal : Signal) (account_summary : AccountSummary)
    (state : TradeState) (trade_locks : List String) (env : ExecEnv) : ExecResult :=
  let instrument := signal.instrument
  if MAX_SPREAD_PIPS < env.spread then
    ⟨"Spread too high on " ++ instrument ++ " (" ++ formatQ2 env.spread ++ " pips)",
      state, trade_locks, [], []⟩
  else
    let cr := can_trade instrument state env.now
    if cr.1 = false then
      ⟨cr.2, state, trade_locks, [], []⟩
    else if trade_locks.contains instrument then
      ⟨"Trade already in progress for " ++ instrument ++ ".", state, trade_locks, [], []⟩
    else
      let r := execute_trade_body signal account_summary state env
      ⟨r.message, r.state, lockPop (instrument :: trade_locks) instrument, r.orders, r.logs⟩

/-- Classification of a broker order response as accepted by
execute_trade: a response is present, carries no truthy errorMessage, and
carries a truthy tradeOpened.tradeID. Derived from the three failure
checks of the source. -/
def orderAccepted : Option OrderResponse → Bool
  | none => false
  | some resp =>
      !pyTruthyStr resp.errorMessage
        && pyTruthyStr ((resp.tradeOpened.getD ⟨none⟩).tradeID)

/-- Open trade as examined by the monitor loop of trading.py: the broker
row joined with the recorded entry time from the database; times are epoch
seconds, unrealized_pl the current unrealized profit. -/
structure OpenTradeInfo where
  trade_id : String
  entry_time : ℚ
  unrealized_pl : ℚ
deriving DecidableEq

/-- Per-trade close condition of TradingEngine.monitor_trades in
trading.py: duration in hours strictly above 2, or strictly positive
unrealized profit. -/
def monitor_should_close (current_time : ℚ) (t : OpenTradeInfo) : Bool :=
  let duration := (current_time - t.entry_time) / 3600
  decide (2 < duration) || decide (0 < t.unrealized_pl)

/-- One sweep of the monitor loop of trading.py over the open trades: the
trade ids it closes (each trade whose close condition holds is closed,
every other trade is left open). -/
def monitor_trades_closed (current_time : ℚ) (trades : List OpenTradeInfo) : List String :=
  (trades.filter (monitor_should_close current_time)).map (fun t => t.trade_id)

/-- Values stored in the persisted state dict, at the granularity
reset_daily_counters distinguishes: it writes the int 0 and the float 0.0;
every other value shape is only carried around. -/
inductive Val where
  | vInt : ℤ → Val
  | vNum : ℚ → Val
  | vOther : ℕ → Val
deriving DecidableEq

/-- A Python dict with string keys, as a partial map over the full key
space (none models an absent key). -/
def PyDict : Type := String → Option Val

/-- The empty dict. -/
def pyDictEmpty : PyDict := fun _ => none

/-- Embedding of reset_daily_counters from state_manager.py: zero the keys
daily_trades (to int 0), daily_profit and daily_loss (to float 0.0), each
only when present, and leave every other key untouched. -/
def reset_daily_counters (state : PyDict) : PyDict :=
  fun k =>
    if k = "daily_trades" then (state "daily_trades").map (fun _ => Val.vInt 0)
    else if k = "daily_profit" then (state "daily_profit").map (fun _ => Val.vNum 0)
    else if k = "daily_loss" then (state "daily_loss").map (fun _ => Val.vNum 0)
    else state k

/-- The filesystem slice the StateManager startup touches: the content of
the canonical state file trade_state.json (none when missing) and the
other files it writes beside it, as name-content pairs. -/
structure FileSys where
  state_file : Option String
  side_files : List (String × String)
deriving DecidableEq

/-- Serialization of the empty state dict, as written by the sync reset
path of the StateManager. -/
def EMPTY_STATE_JSON : String := "{}"

/-- Embedding of StateManager integrity check from state_manager.py.
The JSON codec is an external library, abstracted as the parameter parse
deciding whether a content string loads; a parse failure is the caught
exception path of the source. Returns the filesystem after the check and
the error log lines written (the interpolated exception detail in the log
line is abstracted away). Missing file: write the empty state
synchronously. Present but unparseable: log, copy the corrupted content
aside under a timestamped name, reset the canonical file to empty. -/
def integrity_check (parse : String → Bool) (timestamp : String)
    (fs : FileSys) : FileSys × List String :=
  match fs.state_file with
  | none => (⟨some EMPTY_STATE_JSON, fs.side_files⟩, [])
  | some content =>
    if parse content then (fs, [])
    else
      (⟨some EMPTY_STATE_JSON,
        ("corrupted_" ++ timestamp ++ ".json", content) :: fs.side_files⟩,
       ["State file corrupted, backing up and resetting."])

/-- Embedding of StateManager init from state_manager.py: the in-memory
state starts empty and the startup integrity check runs; the check never
touches the in-memory state. Returns the in-memory dict, the filesystem
after startup and the error log lines. Total by construction: the only
failure the source meets here, a parse error, is caught inside the
integrity check. -/
def state_manager_init (parse : String → Bool) (timestamp : String)
    (fs : FileSys) : PyDict × FileSys × List String :=
  let r := integrity_check parse timestamp fs
  (pyDictEmpty, r.1, r.2)

/-- Scenario input: the signal of end-to-end scenario A of the spec,
instrument EUR_USD, direction buy, confidence 0.8. -/
def scenarioSignal : Signal := ⟨"EUR_USD", "buy", 8 / 10, 11 / 10⟩

/-- Scenario input: an account with balance 1000. -/
def scenarioAcct : AccountSummary := ⟨some 1000⟩

/-- Scenario input: the clean state of scenario A, no open trades, no
prior trades today, no remembered signals. -/
def scenarioState : TradeState := ⟨[], [], [], []⟩

/-- Scenario input: spread 1.0 below the 2.0 cap, ATR 20, clock at 1000,
a broker response opening trade 42, no exception injected. -/
def scenarioEnv : ExecEnv := ⟨1, 20, 1000, "T0", some ⟨none, some ⟨some "42"⟩⟩, none, none⟩

/-- Scenario input: a placeholder open trade used to fill open_trades up
to the global cap. -/
def fillerTrade : TradeRecord := ⟨"0", "EUR_USD", "buy", 1, 20, "T0"⟩

/-- The position size is always at least one unit, on every input. -/
theorem calculate_position_size_ge_one (instrument : String) (acct : AccountSummary)
    (atr : Option ℚ) : 1 ≤ calculate_position_size instrument acct atr := by
  unfold calculate_position_size
  exact le_max_right _ _

/-- Popping a key from the lock map removes it. -/
theorem lockPop_contains_false (locks : List String) (instrument : String) :
    (lockPop locks instrument).contains instrument = false := by
  simp [lockPop, List.mem_filter]

/-- Helper evaluation: the position size of scenario A is 10000 units. -/
theorem scenario_size_eval :
    calculate_position_size "EUR_USD" ⟨some 1000⟩ (some 20) = 10000 := by
  have hjpy : strContains "EUR_USD" "JPY" = false := by decide
  simp only [calculate_position_size, account_balance, hjpy]
  norm_num [pyTrunc]

/-- Helper evaluation: two-decimal rendering of 20. -/
theorem formatQ2_twenty : formatQ2 20 = "20.00" := by
  have h1 : (⌊(20 : ℚ) * 100 + 1 / 2⌋ : ℤ) = 2000 := by norm_num
  simp only [formatQ2, h1]
  decide

/-- Helper evaluation: eligibility passes on the clean scenario state. -/
theorem scenario_can_trade_eval :
    can_trade "EUR_USD" (⟨[], [], [], []⟩ : TradeState) 1000 = (true, "") := by
  norm_num [can_trade, dictGetNat, dictGetQ, MAX_GLOBAL_TRADES,
    MAX_TRADES_PER_DAY, MIN_TIME_BETWEEN_TRADES_SEC]

/-- Helper evaluation: the full result of one scenario A call on the clean
state. -/
theorem scenario_exec_eval :
    execute_trade scenarioSignal scenarioAcct scenarioState [] scenarioEnv =
      ⟨"Trade executed: EUR_USD buy x10000",
       ⟨[⟨"42", "EUR_USD", "buy", 10000, 20, "T0"⟩], [], [], []⟩,
       [], [("EUR_USD", 10000)],
       ["Executed BUY on EUR_USD for 10000 units (ATR: 20.00)"]⟩ := by
  have hbuy : lowerStr "buy" = "buy" := by decide
  have hs : ¬ (MAX_SPREAD_PIPS < (1 : ℚ)) := by norm_num [MAX_SPREAD_PIPS]
  simp [execute_trade, execute_trade_body, scenarioSignal, scenarioAcct,
    scenarioState, scenarioEnv, scenario_can_trade_eval, hs, lockPop,
    record_open_trade, scenario_size_eval, hbuy, pyTruthyStr, log_line_for,
    formatQ2_twenty, upperStr]
  decide

/-- C6: the position sizer always returns an integer of at least 1, the
unavailable and zero ATR inputs fall back to the same fixed 20-pip stop
distance, and a zero account balance yields exactly the minimum of 1
unit. -/
theorem position_size_always_at_least_one (instrument : String) (acct : AccountSummary)
    (atr : Option ℚ) :
    1 ≤ calculate_position_size instrument acct atr
    ∧ calculate_position_size instrument acct none
        = calculate_position_size instrument acct (some 0)
    ∧ calculate_position_size instrument ⟨some 0⟩ atr = 1 := by
  refine ⟨calculate_position_size_ge_one instrument acct atr, ?_, ?_⟩
  · simp [calculate_position_size]
  · have hz : account_balance ⟨some 0⟩ = 0 := rfl
    simp [calculate_position_size, hz, pyTrunc]

/-- Reduction of an execute_trade call that passes the spread gate, the
eligibility gate and the free-lock check to its guarded block plus the
lock pop of the finally clause. -/
theorem execute_trade_past_gates
    (signal : Signal) (acct : AccountSummary) (state : TradeState)
    (locks : List String) (env : ExecEnv)
    (hspread : ¬ MAX_SPREAD_PIPS < env.spread)
    (helig : (can_trade signal.instrument state env.now).1 = true)
    (hfree : locks.contains signal.instrument = false) :
    execute_trade signal acct state locks env =
      { message := (execute_trade_body signal acct state env).message,
        state := (execute_trade_body signal acct state env).state,
        locks := lockPop (signal.instrument :: locks) signal.instrument,
        orders := (execute_trade_body signal acct state env).orders,
        logs := (execute_trade_body signal acct state env).logs } := by
  simp [execute_trade, hspread, helig, hfree]
  intro hmem
  exact absurd hmem (by simpa using hfree)

/-- C2: every execute_trade call that acquires the per-instrument lock
releases it on every exit path, and an exception raised by the recording
or logging step after a successful submission is caught and converted
into a Trade error message instead of propagating. -/
theorem execute_trade_releases_lock_and_converts_errors
    (signal : Signal) (acct : AccountSummary) (state : TradeState)
    (locks : List String) (env : ExecEnv)
    (hspread : ¬ MAX_SPREAD_PIPS < env.spread)
    (helig : (can_trade signal.instrument state env.now).1 = true)
    (hfree : locks.contains signal.instrument = false) :
    (execute_trade signal acct state locks env).locks.contains signal.instrument = false
    ∧ (∀ e, (env.record_exn = some e ∨ (env.record_exn = none ∧ env.log_exn = some e)) →
        state.recent_signals.contains (get_signal_hash signal) = false →
        orderAccepted env.order_response = true →
        (execute_trade signal acct state locks env).message = "Trade error: " ++ e) := by
  rw [execute_trade_past_gates signal acct state locks env hspread helig hfree]
  constructor
  · exact lockPop_contains_false _ _
  · intro e he hdup hacc
    cases horesp : env.order_response with
    | none => rw [horesp] at hacc; exact absurd hacc (by simp [orderAccepted])
    | some resp =>
      rw [horesp] at hacc
      have herr : pyTruthyStr resp.errorMessage = false := by
        rcases h : pyTruthyStr resp.errorMessage with _ | _
        · rfl
        · simp [orderAccepted, h] at hacc
      have htid : pyTruthyStr ((resp.tradeOpened.getD ⟨none⟩).tradeID) = true := by
        simp [orderAccepted, herr] at hacc
        exact hacc
      have hdup2 : get_signal_hash signal ∉ state.recent_signals := by simpa using hdup
      rcases he with hrec | ⟨hrecn, hlog⟩
      · simp [execute_trade_body, hdup2, horesp, herr, htid, hrec]
      · simp [execute_trade_body, hdup2, horesp, herr, htid, hrecn, hlog]

/-- C2 witness: a concrete call whose recording step raises. -/
theorem execute_trade_releases_lock_and_converts_errors_witness :
    (execute_trade scenarioSignal scenarioAcct scenarioState []
        ⟨1, 20, 1000, "T0", some ⟨none, some ⟨some "42"⟩⟩, some "boom", none⟩).locks.contains
        "EUR_USD" = false
    ∧ (execute_trade scenarioSignal scenarioAcct scenarioState []
        ⟨1, 20, 1000, "T0", some ⟨none, some ⟨some "42"⟩⟩, some "boom", none⟩).message
        = "Trade error: boom" := by
  have h := execute_trade_releases_lock_and_converts_errors scenarioSignal scenarioAcct
    scenarioState [] ⟨1, 20, 1000, "T0", some ⟨none, some ⟨some "42"⟩⟩, some "boom", none⟩
    (by norm_num [MAX_SPREAD_PIPS])
    (by simpa [scenarioSignal, scenarioState] using congrArg Prod.fst scenario_can_trade_eval)
    (by decide)
  refine ⟨h.1, ?_⟩
  have h2 := h.2 "boom" (Or.inl rfl) (by simp [scenarioState]) (by decide)
  simpa using h2

/-- C5: when the per-instrument lock is already held and the spread and
eligibility checks pass, execute_trade returns the in-progress message
immediately, submits no order, writes no log and leaves both the state
and the lock map untouched. -/
theorem execute_trade_in_progress_rejected
    (signal : Signal) (acct : AccountSummary) (state : TradeState)
    (locks : List String) (env : ExecEnv)
    (hspread : ¬ MAX_SPREAD_PIPS < env.spread)
    (helig : (can_trade signal.instrument state env.now).1 = true)
    (hheld : locks.contains signal.instrument = true) :
    execute_trade signal acct state locks env =
      ⟨"Trade already in progress for " ++ signal.instrument ++ ".",
        state, locks, [], []⟩ := by
  have hmem : signal.instrument ∈ locks := by simpa using hheld
  simp [execute_trade, hspread, helig, hmem]

/-- C5 witness: with the lock held for EUR_USD, the concrete scenario call
is rejected without a gateway call or state change. -/
theorem execute_trade_in_progress_rejected_witness :
    execute_trade scenarioSignal scenarioAcct scenarioState ["EUR_USD"] scenarioEnv =
      ⟨"Trade already in progress for EUR_USD.", scenarioState, ["EUR_USD"], [], []⟩ := by
  have h := execute_trade_in_progress_rejected scenarioSignal scenarioAcct
    scenarioState ["EUR_USD"] scenarioEnv
    (by norm_num [scenarioEnv, MAX_SPREAD_PIPS])
    (by simpa [scenarioSignal, scenarioState, scenarioEnv]
      using congrArg Prod.fst scenario_can_trade_eval)
    (by decide)
  simpa [scenarioSignal] using h

/-- C10: every call that reaches the order-submission step submits exactly
one order whose units are the position size exactly when the direction
lower-cases to buy and the negated position size for every other direction
string, which is never validated; the submitted units are positive exactly
in the buy case and strictly negative otherwise. -/
theorem execute_trade_signed_units
    (signal : Signal) (acct : AccountSummary) (state : TradeState)
    (locks : List String) (env : ExecEnv)
    (hspread : ¬ MAX_SPREAD_PIPS < env.spread)
    (helig : (can_trade signal.instrument state env.now).1 = true)
    (hfree : locks.contains signal.instrument = false)
    (hdup : state.recent_signals.contains (get_signal_hash signal) = false) :
    (execute_trade signal acct state locks env).orders =
      [(signal.instrument,
        if lowerStr signal.direction = "buy"
        then calculate_position_size signal.instrument acct (some env.atr)
        else -calculate_position_size signal.instrument acct (some env.atr))]
    ∧ (0 < (if lowerStr signal.direction = "buy"
        then calculate_position_size signal.instrument acct (some env.atr)
        else -calculate_position_size signal.instrument acct (some env.atr))
        ↔ lowerStr signal.direction = "buy")
    ∧ (lowerStr signal.direction ≠ "buy" →
        (if lowerStr signal.direction = "buy"
         then calculate_position_size signal.instrument acct (some env.atr)
         else -calculate_position_size signal.instrument acct (some env.atr))
          = -calculate_position_size signal.instrument acct (some env.atr)
        ∧ (if lowerStr signal.direction = "buy"
           then calculate_position_size signal.instrument acct (some env.atr)
           else -calculate_position_size signal.instrument acct (some env.atr)) < 0) := by
  have hsize := calculate_position_size_ge_one signal.instrument acct (some env.atr)
  have hdup2 : get_signal_hash signal ∉ state.recent_signals := by simpa using hdup
  refine ⟨?_, ?_, ?_⟩
  · rw [execute_trade_past_gates signal acct state locks env hspread helig hfree]
    cases horesp : env.order_response with
    | none => simp [execute_trade_body, hdup2, horesp]
    | some resp =>
      cases herr : pyTruthyStr resp.errorMessage with
      | true => simp [execute_trade_body, hdup2, horesp, herr]
      | false =>
        cases htid : pyTruthyStr ((resp.tradeOpened.getD ⟨none⟩).tradeID) with
        | false => simp [execute_trade_body, hdup2, horesp, herr, htid]
        | true =>
          cases hrec : env.record_exn with
          | some e => simp [execute_trade_body, hdup2, horesp, herr, htid, hrec]
          | none =>
            cases hlog : env.log_exn with
            | some e => simp [execute_trade_body, hdup2, horesp, herr, htid, hrec, hlog]
            | none => simp [execute_trade_body, hdup2, horesp, herr, htid, hrec, hlog]
  · by_cases hb : lowerStr signal.direction = "buy"
    · simp [hb]
      omega
    · simp [hb]
      omega
  · intro hb
    rw [if_neg hb]
    exact ⟨rfl, by omega⟩

/-- C10 witness: with the invalid direction hold the submitted units are
the negated size, and with direction buy they are the positive size. -/
theorem execute_trade_signed_units_witness :
    (execute_trade ⟨"EUR_USD", "hold", 8 / 10, 11 / 10⟩ scenarioAcct scenarioState []
        scenarioEnv).orders = [("EUR_USD", -10000)]
    ∧ (execute_trade scenarioSignal scenarioAcct scenarioState []
        scenarioEnv).orders = [("EUR_USD", 10000)] := by
  have helig : (can_trade "EUR_USD" scenarioState scenarioEnv.now).1 = true := by
    simpa [scenarioState, scenarioEnv]
      using congrArg Prod.fst scenario_can_trade_eval
  have hhold := execute_trade_signed_units ⟨"EUR_USD", "hold", 8 / 10, 11 / 10⟩
    scenarioAcct scenarioState [] scenarioEnv
    (by norm_num [scenarioEnv, MAX_SPREAD_PIPS]) helig (by decide)
    (by simp [scenarioState])
  have hbuy := execute_trade_signed_units scenarioSignal
    scenarioAcct scenarioState [] scenarioEnv
    (by norm_num [scenarioEnv, MAX_SPREAD_PIPS])
    (by simpa [scenarioSignal] using helig) (by decide)
    (by simp [scenarioState])
  constructor
  · have h1 := hhold.1
    rw [h1]
    have hl : lowerStr "hold" = "hold" := by decide
    simp [hl, scenarioAcct, scenarioEnv, scenario_size_eval]
  · have h1 := hbuy.1
    rw [h1]
    have hl : lowerStr "buy" = "buy" := by decide
    simp [hl, scenarioSignal, scenarioAcct, scenarioEnv, scenario_size_eval]

/-- Helper evaluation: the result of re-running the scenario A call on the
state left by the first successful call. -/
theorem scenario_exec_eval_second :
    execute_trade scenarioSignal scenarioAcct
        ⟨[⟨"42", "EUR_USD", "buy", 10000, 20, "T0"⟩], [], [], []⟩ [] scenarioEnv =
      ⟨"Trade executed: EUR_USD buy x10000",
       ⟨[⟨"42", "EUR_USD", "buy", 10000, 20, "T0"⟩,
         ⟨"42", "EUR_USD", "buy", 10000, 20, "T0"⟩], [], [], []⟩,
       [], [("EUR_USD", 10000)],
       ["Executed BUY on EUR_USD for 10000 units (ATR: 20.00)"]⟩ := by
  have hbuy : lowerStr "buy" = "buy" := by decide
  have hs : ¬ (MAX_SPREAD_PIPS < (1 : ℚ)) := by norm_num [MAX_SPREAD_PIPS]
  have hc : can_trade "EUR_USD"
      (⟨[⟨"42", "EUR_USD", "buy", 10000, 20, "T0"⟩], [], [], []⟩ : TradeState) 1000
      = (true, "") := by
    norm_num [can_trade, dictGetNat, dictGetQ, MAX_GLOBAL_TRADES,
      MAX_TRADES_PER_DAY, MIN_TIME_BETWEEN_TRADES_SEC]
  simp [execute_trade, execute_trade_body, scenarioSignal, scenarioAcct,
    scenarioEnv, hc, hs, lockPop, record_open_trade, scenario_size_eval, hbuy,
    pyTruthyStr, log_line_for, formatQ2_twenty, upperStr]
  decide

/-- C1: the duplicate-signal guard of execute_trade reads recent_signals,
but no code path ever adds a fingerprint to it, so submitting the same
signal twice against the same in-memory state submits two orders: the
first successful call leaves recent_signals empty and the second call
submits again instead of returning the duplicate-skip message. -/
theorem duplicate_signal_fingerprint_never_recorded :
    (execute_trade scenarioSignal scenarioAcct scenarioState [] scenarioEnv).orders.length = 1
    ∧ (execute_trade scenarioSignal scenarioAcct scenarioState []
        scenarioEnv).state.recent_signals = []
    ∧ (execute_trade scenarioSignal scenarioAcct
        (execute_trade scenarioSignal scenarioAcct scenarioState [] scenarioEnv).state
        (execute_trade scenarioSignal scenarioAcct scenarioState [] scenarioEnv).locks
        scenarioEnv).orders.length = 1
    ∧ (execute_trade scenarioSignal scenarioAcct
        (execute_trade scenarioSignal scenarioAcct scenarioState [] scenarioEnv).state
        (execute_trade scenarioSignal scenarioAcct scenarioState [] scenarioEnv).locks
        scenarioEnv).message ≠ "Duplicate signal skipped for EUR_USD." := by
  rw [scenario_exec_eval]
  refine ⟨rfl, rfl, ?_, ?_⟩
  · rw [scenario_exec_eval_second]
    rfl
  · rw [scenario_exec_eval_second]
    decide

/-- C3: a successful execution appends the trade record, logs the action
and returns the success message with instrument, direction and size, but
it never increments daily_trade_count and never sets last_trade_time: in
scenario A the count for EUR_USD stays 0 instead of becoming 1. -/
theorem success_leaves_daily_trade_count_unchanged :
    (execute_trade scenarioSignal scenarioAcct scenarioState [] scenarioEnv).message
        = "Trade executed: EUR_USD buy x10000"
    ∧ (execute_trade scenarioSignal scenarioAcct scenarioState []
        scenarioEnv).state.open_trades.length = scenarioState.open_trades.length + 1
    ∧ (execute_trade scenarioSignal scenarioAcct scenarioState [] scenarioEnv).logs.length = 1
    ∧ dictGetNat (execute_trade scenarioSignal scenarioAcct scenarioState []
        scenarioEnv).state.daily_trade_count "EUR_USD" = 0
    ∧ dictGetQ (execute_trade scenarioSignal scenarioAcct scenarioState []
        scenarioEnv).state.last_trade_time "EUR_USD" = 0 := by
  rw [scenario_exec_eval]
  exact ⟨rfl, rfl, rfl, rfl, rfl⟩

/-- C4 counterexample: a state that satisfies the claim hypotheses, the
daily count for EUR_USD at the cap and the spread inside the limit, on
which execute_trade does not return the max-trades message: the global cap
check of can_trade runs first and pre-empts it. -/
theorem max_trades_message_preempted_by_global_cap :
    MAX_TRADES_PER_DAY ≤ dictGetNat
        ((⟨List.replicate 50 fillerTrade, [("EUR_USD", 10)], [], []⟩ :
          TradeState)).daily_trade_count "EUR_USD"
    ∧ ¬ (MAX_SPREAD_PIPS < scenarioEnv.spread)
    ∧ (execute_trade scenarioSignal scenarioAcct
        ⟨List.replicate 50 fillerTrade, [("EUR_USD", 10)], [], []⟩ [] scenarioEnv).message
        = "Max global trades reached."
    ∧ (execute_trade scenarioSignal scenarioAcct
        ⟨List.replicate 50 fillerTrade, [("EUR_USD", 10)], [], []⟩ [] scenarioEnv).message
        ≠ "Max trades for EUR_USD today." := by
  have hct : can_trade "EUR_USD"
      (⟨List.replicate 50 fillerTrade, [("EUR_USD", 10)], [], []⟩ : TradeState) 1000
      = (false, "Max global trades reached.") := by
    simp [can_trade, MAX_GLOBAL_TRADES]
  have hs : ¬ (MAX_SPREAD_PIPS < (1 : ℚ)) := by norm_num [MAX_SPREAD_PIPS]
  have hr : (execute_trade scenarioSignal scenarioAcct
      ⟨List.replicate 50 fillerTrade, [("EUR_USD", 10)], [], []⟩ [] scenarioEnv).message
      = "Max global trades reached." := by
    have hsp : ¬ MAX_SPREAD_PIPS < scenarioEnv.spread := by
      norm_num [scenarioEnv, MAX_SPREAD_PIPS]
    have h1 : scenarioSignal.instrument = "EUR_USD" := rfl
    have h2 : scenarioEnv.now = 1000 := rfl
    simp only [execute_trade]
    rw [if_neg hsp, h1, h2, hct]
    simp
  refine ⟨by decide, by norm_num [scenarioEnv, MAX_SPREAD_PIPS], hr, ?_⟩
  rw [hr]
  decide

/-- C4 amended: whenever the daily count for an instrument has reached
MAX_TRADES_PER_DAY, can_trade returns not-allowed regardless of the other
state fields; and provided the global cap check does not pre-empt it, that
is when open_trades is below MAX_GLOBAL_TRADES, execute_trade with spread
within the limit returns the max-trades message with no gateway call, no
log and no change to state or locks. -/
theorem can_trade_daily_cap_blocks
    (instrument : String) (state : TradeState) (now : ℚ)
    (signal : Signal) (acct : AccountSummary) (locks : List String) (env : ExecEnv)
    (hdaily : MAX_TRADES_PER_DAY ≤ dictGetNat state.daily_trade_count instrument) :
    (can_trade instrument state now).1 = false
    ∧ (state.open_trades.length < MAX_GLOBAL_TRADES →
        signal.instrument = instrument →
        ¬ MAX_SPREAD_PIPS < env.spread →
        execute_trade signal acct state locks env =
          ⟨"Max trades for " ++ instrument ++ " today.", state, locks, [], []⟩) := by
  constructor
  · by_cases hg : MAX_GLOBAL_TRADES ≤ state.open_trades.length
    · simp [can_trade, hg]
    · simp [can_trade, hg, hdaily]
  · intro hlen hinst hspread
    have hg : ¬ (MAX_GLOBAL_TRADES ≤ state.open_trades.length) := not_le.mpr hlen
    have hct : can_trade instrument state env.now =
        (false, "Max trades for " ++ instrument ++ " today.") := by
      simp [can_trade, hg, hdaily]
    simp [execute_trade, hinst, hspread, hct]

/-- C4 amended witness: daily count at the cap, global cap not reached. -/
theorem can_trade_daily_cap_blocks_witness :
    (can_trade "EUR_USD" ⟨[], [("EUR_USD", 10)], [], []⟩ 1000).1 = false
    ∧ execute_trade scenarioSignal scenarioAcct
        ⟨[], [("EUR_USD", 10)], [], []⟩ [] scenarioEnv =
        ⟨"Max trades for EUR_USD today.", ⟨[], [("EUR_USD", 10)], [], []⟩, [], [], []⟩ := by
  have h := can_trade_daily_cap_blocks "EUR_USD" ⟨[], [("EUR_USD", 10)], [], []⟩ 1000
    scenarioSignal scenarioAcct [] scenarioEnv (by decide)
  refine ⟨h.1, ?_⟩
  have h2 := h.2 (by decide) rfl (by norm_num [scenarioEnv, MAX_SPREAD_PIPS])
  simpa using h2

/-- C7: the monitor loop closes an examined trade exactly when the holding
duration strictly exceeds 2 hours or the unrealized profit is strictly
positive; a trade held 3 hours is closed whatever the sign of its profit,
a trade held exactly 2 hours with non-positive profit is left open, and
the sweep treats each trade of the list by that rule. -/
theorem monitor_close_rule (now : ℚ) (t : OpenTradeInfo) (rest : List OpenTradeInfo) :
    (monitor_should_close now t = true
      ↔ (2 < (now - t.entry_time) / 3600 ∨ 0 < t.unrealized_pl))
    ∧ (now - t.entry_time = 3 * 3600 → monitor_should_close now t = true)
    ∧ (now - t.entry_time = 2 * 3600 → t.unrealized_pl ≤ 0 →
        monitor_should_close now t = false)
    ∧ monitor_trades_closed now (t :: rest) =
        (if monitor_should_close now t then [t.trade_id] else [])
          ++ monitor_trades_closed now rest := by
  refine ⟨?_, ?_, ?_, ?_⟩
  · simp [monitor_should_close]
  · intro h
    have hd : 2 < (now - t.entry_time) / 3600 := by rw [h]; norm_num
    simp [monitor_should_close, hd]
  · intro h hpl
    have hd : ¬ (2 < (now - t.entry_time) / 3600) := by rw [h]; norm_num
    have hp : ¬ (0 < t.unrealized_pl) := not_lt.mpr hpl
    simp [monitor_should_close, hd, hp]
  · by_cases hc : monitor_should_close now t
    · simp [monitor_trades_closed, List.filter_cons, hc]
    · simp [monitor_trades_closed, List.filter_cons, hc]

/-- C7 witness: a trade opened 3 hours ago with negative profit is closed,
a trade held exactly 2 hours with negative profit is left open. -/
theorem monitor_close_rule_witness :
    monitor_should_close 10800 ⟨"T1", 0, -5⟩ = true
    ∧ monitor_should_close 7200 ⟨"T2", 0, -5⟩ = false := by
  have h1 := monitor_close_rule 10800 ⟨"T1", 0, -5⟩ []
  have h2 := monitor_close_rule 7200 ⟨"T2", 0, -5⟩ []
  exact ⟨h1.2.1 (by norm_num), h2.2.2.1 (by norm_num) (by norm_num)⟩

/-- C8: when the canonical state file is missing, startup initializes an
empty in-memory state and writes the empty state synchronously; when the
file is present but fails to parse, startup returns normally with an empty
in-memory state, the canonical file reset to the empty serialization, a
quarantined copy of the original content under a timestamped name, and a
non-empty error log. -/
theorem startup_recovers_from_missing_or_corrupt_state
    (parse : String → Bool) (ts : String) (fs : FileSys) :
    (fs.state_file = none →
      state_manager_init parse ts fs =
        (pyDictEmpty, ⟨some EMPTY_STATE_JSON, fs.side_files⟩, []))
    ∧ (∀ content, fs.state_file = some content → parse content = false →
        state_manager_init parse ts fs =
          (pyDictEmpty,
           ⟨some EMPTY_STATE_JSON,
            ("corrupted_" ++ ts ++ ".json", content) :: fs.side_files⟩,
           ["State file corrupted, backing up and resetting."])) := by
  constructor
  · intro h
    simp [state_manager_init, integrity_check, h]
  · intro content hc hp
    simp [state_manager_init, integrity_check, hc, hp]

/-- C8 witness: a corrupt file is quarantined and reset, a missing file is
created empty; the JSON codec is instantiated with a parser accepting only
the empty object. -/
theorem startup_recovers_witness :
    (state_manager_init (fun s => s == "{}") "20260101T000000"
        ⟨some "garbage", []⟩).2.1.state_file = some EMPTY_STATE_JSON
    ∧ (state_manager_init (fun s => s == "{}") "20260101T000000"
        ⟨some "garbage", []⟩).2.1.side_files
        = [("corrupted_20260101T000000.json", "garbage")]
    ∧ (state_manager_init (fun s => s == "{}") "20260101T000000"
        ⟨some "garbage", []⟩).2.2 ≠ []
    ∧ state_manager_init (fun s => s == "{}") "20260101T000000" ⟨none, []⟩ =
      (pyDictEmpty, ⟨some EMPTY_STATE_JSON, []⟩, []) := by
  have h := startup_recovers_from_missing_or_corrupt_state
    (fun s => s == "{}") "20260101T000000" ⟨some "garbage", []⟩
  have h2 := startup_recovers_from_missing_or_corrupt_state
    (fun s => s == "{}") "20260101T000000" ⟨none, []⟩
  have hx := h.2 "garbage" rfl (by decide)
  refine ⟨?_, ?_, ?_, h2.1 rfl⟩
  · rw [hx]
  · rw [hx]
    decide
  · rw [hx]
    decide

/-- C9: reset_daily_counters zeroes at most the keys daily_trades,
daily_profit and daily_loss, each only when present, and leaves every
other key unchanged, in particular daily_trade_count, last_trade_time,
open_trades and recent_signals. -/
theorem reset_daily_counters_frame (state : PyDict) (k : String)
    (hk1 : k ≠ "daily_trades") (hk2 : k ≠ "daily_profit") (hk3 : k ≠ "daily_loss") :
    reset_daily_counters state k = state k
    ∧ reset_daily_counters state "daily_trade_count" = state "daily_trade_count"
    ∧ reset_daily_counters state "last_trade_time" = state "last_trade_time"
    ∧ reset_daily_counters state "open_trades" = state "open_trades"
    ∧ reset_daily_counters state "recent_signals" = state "recent_signals"
    ∧ (state "daily_trades" ≠ none →
        reset_daily_counters state "daily_trades" = some (Val.vInt 0))
    ∧ (state "daily_profit" ≠ none →
        reset_daily_counters state "daily_profit" = some (Val.vNum 0))
    ∧ (state "daily_loss" ≠ none →
        reset_daily_counters state "daily_loss" = some (Val.vNum 0))
    ∧ (state "daily_trades" = none →
        reset_daily_counters state "daily_trades" = none) := by
  refine ⟨?_, ?_, ?_, ?_, ?_, ?_, ?_, ?_, ?_⟩
  · simp [reset_daily_counters, hk1, hk2, hk3]
  · simp only [reset_daily_counters]
    rw [if_neg (by decide), if_neg (by decide), if_neg (by decide)]
  · simp only [reset_daily_counters]
    rw [if_neg (by decide), if_neg (by decide), if_neg (by decide)]
  · simp only [reset_daily_counters]
    rw [if_neg (by decide), if_neg (by decide), if_neg (by decide)]
  · simp only [reset_daily_counters]
    rw [if_neg (by decide), if_neg (by decide), if_neg (by decide)]
  · intro h
    cases hs : state "daily_trades" with
    | none => exact absurd hs h
    | some v => simp [reset_daily_counters, hs]
  · intro h
    cases hs : state "daily_profit" with
    | none => exact absurd hs h
    | some v => simp [reset_daily_counters, hs]
  · intro h
    cases hs : state "daily_loss" with
    | none => exact absurd hs h
    | some v => simp [reset_daily_counters, hs]
  · intro h
    simp [reset_daily_counters, h]

/-- C9 witness: a dict holding a daily_trades counter and an open_trades
value keeps open_trades and zeroes daily_trades. -/
theorem reset_daily_counters_frame_witness :
    reset_daily_counters
        (fun k => if k = "daily_trades" then some (Val.vInt 7)
          else if k = "open_trades" then some (Val.vOther 1) else none)
        "open_trades"
      = some (Val.vOther 1)
    ∧ reset_daily_counters
        (fun k => if k = "daily_trades" then some (Val.vInt 7)
          else if k = "open_trades" then some (Val.vOther 1) else none)
        "daily_trades"
      = some (Val.vInt 0) := by
  have h := reset_daily_counters_frame
    (fun k => if k = "daily_trades" then some (Val.vInt 7)
      else if k = "open_trades" then some (Val.vOther 1) else none)
    "open_trades" (by decide) (by decide) (by decide)
  refine ⟨?_, h.2.2.2.2.2.1 (by decide)⟩
  have h1 := h.1
  rw [h1]
  decide
